import Mathlib

/-!
Verification development for the referee-report generator (`rr.py`).

The tool is a command-line pipeline: it binds one PDF document into a
scenario, runs an ordered two-question survey against three model
backends, renders the collected answers with a fixed template, and
routes the rendered report to one of three sinks (clipboard, remote
publish, local file).

The repository source `src/rr.py` contains the orchestration in its
`main` function.  The survey execution engine and the report renderer
live in the external `edsl` package; those parts are modelled from the
specification (sections 4.2 and 4.3), as marked on each definition.
External side effects (login, publishing, model calls, clipboard and
file writes) are recorded as an explicit trace of `Effect` values, and
the external collaborators are abstracted into an `Env` record.
-/

/-- Record returned by the Artifact Registry when an artifact is
published (the dictionary keys read by `rr.py` lines 114-118). -/
structure PublishRecord where
  url : String
  alias_url : String
  uuid : String
  version : String
  visibility : String
deriving DecidableEq

/-- Backend model configuration, mirroring the `Model(...)` calls of
`rr.py` lines 123-133 (identifier, provider tag, optional generation
parameters). -/
structure ModelConfig where
  model : String
  service_name : String
  reasoning_tokens : Option Nat := none
  max_completion_tokens : Option Nat := none
  max_tokens : Option Nat := none
deriving DecidableEq

/-- A named free-text question (`QuestionFreeText` in `rr.py`). -/
structure Question where
  question_name : String
  question_text : String
deriving DecidableEq

/-- Keyword arguments assembled for the `FileStore` document reference
(`rr.py` lines 97-99): the path, and a pages key that is present only
when the `--pages` value is truthy. -/
structure FileStoreArgs where
  path : String
  pages : Option Int := none
deriving DecidableEq

/-- The single scenario binding the slot `paper` to the document
reference (`rr.py` line 101). -/
structure Scenario where
  paper : FileStoreArgs
deriving DecidableEq

/-- Answers collected for one model: the list of
(question name, answer text) pairs in evaluation order. -/
structure ModelResult where
  model : ModelConfig
  answers : List (String × String)
deriving DecidableEq

/-- The complete result matrix: one `ModelResult` per model, in Model
Set declaration order. -/
abbrev ResultMatrix := List ModelResult

/-- Observable side effects of one invocation, in program order. -/
inductive Effect where
  | login
  | publishPaper (description : String)
  | modelCall (model : String) (question : String)
  | clipboardCopy (text : String)
  | fileWrite (filename : String) (content : String)
  | publishReport (description : String)
deriving DecidableEq

/-- Fatal error classes of the embedded run.  `rr.py` contains no
argument validation, so the only failure points modelled here are the
two Artifact Registry publish calls, whose exceptions propagate out of
`main` unhandled. -/
inductive RunError where
  | publishError (msg : String)
deriving DecidableEq

/-- Parsed command-line options of the single command (`rr.py` lines
34-68).  `click` supplies the prompt default, so `prompt` is always a
string; `output` is accepted but never read by the body of `main`. -/
structure Options where
  pdf_file : String
  output : Option String := none
  pages : Option Int := none
  prompt : String := "Write a full economics-style critical review of this paper:"
  clipboard : Bool := false
  to_coop : Bool := false
deriving DecidableEq

/-- External collaborators of one invocation.  `evaluate` abstracts the
Model Runner (template substitution plus backend call) for one question
given the scenario and the answers produced earlier for the same model;
`pushPaper` and `pushReport` are the outcomes of the two Artifact
Registry publish calls (an `error` models a raised exception);
`tempName` is the unique temporary filename handed out by the OS. -/
structure Env where
  evaluate : Scenario → ModelConfig → Question → List (String × String) → String
  pushPaper : Except String PublishRecord
  pushReport : Except String PublishRecord
  tempName : String

/- ## String helpers (structurally recursive, kernel-reducible) -/

/-- Boolean test that `pat` is an initial segment of `s`. -/
def leadsWith : List Char → List Char → Bool
  | [], _ => true
  | _ :: _, [] => false
  | p :: ps, c :: cs => p == c && leadsWith ps cs

/-- Replace every non-overlapping occurrence of `pat` by `rep`,
scanning left to right; `fuel` bounds the number of scan steps. -/
def replaceChars : Nat → List Char → List Char → List Char → List Char
  | 0, s, _, _ => s
  | _ + 1, [], _, _ => []
  | n + 1, c :: cs, pat, rep =>
    if pat ≠ [] ∧ leadsWith pat (c :: cs) = true then
      rep ++ replaceChars n (List.drop pat.length (c :: cs)) pat rep
    else
      c :: replaceChars n cs pat rep

/-- String-level wrapper of `replaceChars`. -/
def replaceStr (s pat rep : String) : String :=
  String.mk (replaceChars s.data.length s.data pat.data rep.data)

/-- Split a character list at a separator character. -/
def splitChar (sep : Char) : List Char → List (List Char)
  | [] => [[]]
  | c :: cs =>
    let r := splitChar sep cs
    if c == sep then [] :: r
    else
      match r with
      | [] => [[c]]
      | g :: gs => (c :: g) :: gs

/-- Last element of a list of groups, with a default. -/
def lastGroup : List (List Char) → List Char → List Char
  | [], d => d
  | [g], _ => g
  | _ :: g :: gs, d => lastGroup (g :: gs) d

/-- Final path component, as Python `pathlib.Path.name` computes it for
ordinary paths. -/
def pathName (p : String) : String :=
  String.mk (lastGroup (splitChar '/' p.data) p.data)

/-- Index of the last dot in a character list, if any. -/
def lastDotAux : List Char → Nat → Option Nat → Option Nat
  | [], _, acc => acc
  | c :: cs, i, acc => lastDotAux cs (i + 1) (if c == '.' then some i else acc)

/-- Base name without the final extension, as Python
`pathlib.Path.stem` computes it: the suffix is dropped only when the
last dot sits strictly inside the name. -/
def pathStem (p : String) : String :=
  let n := pathName p
  let cs := n.data
  match lastDotAux cs 0 none with
  | none => n
  | some i => if 0 < i ∧ i + 1 < cs.length then String.mk (cs.take i) else n

/-- Join a list of strings with a separator. -/
def joinSep (sep : String) : List String → String
  | [] => ""
  | [s] => s
  | s :: rest => s ++ sep ++ joinSep sep rest

/- ## Pipeline data, translated from `rr.py` -/

/-- Default value of the `--prompt` option (`rr.py` line 48). -/
def defaultPrompt : String :=
  "Write a full economics-style critical review of this paper:"

/-- Python truthiness of the optional `--pages` integer: `None` and `0`
are falsy, every other integer is truthy (`rr.py` line 98 `if pages:`). -/
def pagesTruthy : Option Int → Bool
  | none => false
  | some p => p != 0

/-- Keyword arguments for the document reference (`rr.py` lines 97-99):
the pages key is added only when the option value is truthy. -/
def fileStoreKwargs (path : String) (pages : Option Int) : FileStoreArgs :=
  { path := path, pages := if pagesTruthy pages then pages else none }

/-- The scenario built from the parsed options (`rr.py` line 101). -/
def scenarioOf (o : Options) : Scenario :=
  { paper := fileStoreKwargs o.pdf_file o.pages }

/-- First question (`rr.py` lines 136-139).  The Python f-string
`f'{prompt} {{{{scenario.paper}}}}'` yields the prompt text, a space,
and the literal scenario placeholder. -/
def review_question (prompt : String) : Question :=
  { question_name := "full_review",
    question_text := prompt ++ " \x7b\x7bscenario.paper\x7d\x7d" }

/-- Second question (`rr.py` lines 140-147), after `textwrap.dedent`
strips the common eight-space margin; the closing four-space line does
not carry the margin and therefore survives unchanged. -/
def q_response_to_review : Question :=
  { question_name := "response_to_review",
    question_text :=
      "You submitted this paper: \x7b\x7b scenario.paper\x7d\x7d. You received this review \x7b\x7b full_review.answer\x7d\x7d. \nPlease write a detailed response to the review.\nPush back on critiques that you don\x27t agree with or that you think are wrong and explain why. \nSupport your arguments with evidence from the paper.\n    " }

/-- The ordered question set (`rr.py` line 149). -/
def survey (prompt : String) : List Question :=
  [review_question prompt, q_response_to_review]

/-- The ordered model set (`rr.py` lines 123-133). -/
def models : List ModelConfig :=
  [ { model := "claude-opus-4-20250514", service_name := "anthropic" },
    { model := "gemini-2.0-flash-exp", service_name := "google" },
    { model := "o1-preview", service_name := "openai",
      reasoning_tokens := some 100000,
      max_completion_tokens := some 100000,
      max_tokens := some 32768 } ]

/-- The fixed report template (`rr.py` lines 158-166). -/
def report_template : String :=
  "#\n# Review by \x7b\x7b model \x7d\x7d\n\x7b\x7bfull_review\x7d\x7d\n\n## Response to Review\n\n\x7b\x7bresponse_to_review\x7d\x7d\n\n"

/-- Description attached to the published source document
(`rr.py` line 107). -/
def paperDescription (pdf_file : String) : String :=
  "Paper being reviewed: " ++ pathName pdf_file

/-- Description attached to the published report (`rr.py` lines
192-194): it carries the source publish record URL when one exists and
the literal text `unknown` otherwise. -/
def reviewDescription (pdf_file : String) (coop_info : Option PublishRecord) : String :=
  "Review of paper: " ++ pathName pdf_file ++ ". Paper at " ++
    (match coop_info with
     | some r => r.url
     | none => "unknown")

/-- Deterministic local output filename (`rr.py` line 211). -/
def localFilename (pdf_file : String) : String :=
  "referee_report_" ++ pathStem pdf_file ++ ".docx"

/- ## Survey execution and rendering -/

/-- Modelled from the spec: the Execution Matrix Builder of section 4.2
for a single model.  Questions are evaluated strictly in declaration
order; each evaluation receives the answers already produced for the
same model; every dispatch is recorded as a `modelCall` effect.  The
engine itself lives in the external `edsl` package (`rr.py` line 153),
so it is reconstructed here from the specification text. -/
def runModelChain (env : Env) (scen : Scenario) (m : ModelConfig) :
    List Question → List (String × String) → List (String × String) × List Effect
  | [], _ => ([], [])
  | q :: rest, prior =>
    let a := env.evaluate scen m q prior
    let t := runModelChain env scen m rest (prior ++ [(q.question_name, a)])
    ((q.question_name, a) :: t.1, Effect.modelCall m.model q.question_name :: t.2)

/-- Modelled from the spec: the full matrix build of section 4.2 —
models are processed one at a time in Model Set order, each evaluating
the whole question set independently. -/
def runSurvey (env : Env) (scen : Scenario) (qs : List Question) :
    List ModelConfig → ResultMatrix × List Effect
  | [] => ([], [])
  | m :: rest =>
    let h := runModelChain env scen m qs []
    let t := runSurvey env scen qs rest
    ({ model := m, answers := h.1 } :: t.1, h.2 ++ t.2)

/-- Number of result cells in a matrix. -/
def totalCells (M : ResultMatrix) : Nat :=
  (M.map fun mr => mr.answers.length).sum

/-- Modelled from the spec: one rendered report section (section 4.3) —
the template with the model placeholder replaced by the model identity
and each question placeholder replaced by that model answer.  The
renderer lives in the external `edsl` package (`rr.py`
`report_from_template`). -/
def renderSection (t : String) (mr : ModelResult) : String :=
  mr.answers.foldl
    (fun acc qa => replaceStr acc ("\x7b\x7b" ++ qa.1 ++ "\x7d\x7d") qa.2)
    (replaceStr t "\x7b\x7b model \x7d\x7d" mr.model.model)

/-- Modelled from the spec: the list of report sections, one per model,
in matrix (hence Model Set) order. -/
def reportSections (t : String) (M : ResultMatrix) : List String :=
  M.map (renderSection t)

/-- Modelled from the spec: the plain-text report — the sections joined
with a blank line separator (section 4.3, `text` format). -/
def reportText (t : String) (M : ResultMatrix) : String :=
  joinSep "\n\n" (reportSections t M)

/-- One section of the structured document format: a heading carrying
the model identity, then the rendered body. -/
structure DocxSection where
  heading : String
  body : String
deriving DecidableEq

/-- The structured document format report. -/
structure Docx where
  sections : List DocxSection
deriving DecidableEq

/-- Modelled from the spec: the `document` format report (section 4.3)
— each section begins with a heading carrying the model identity. -/
def renderDocx (t : String) (M : ResultMatrix) : Docx :=
  { sections := M.map fun mr => { heading := mr.model.model, body := renderSection t mr } }

/-- Modelled from the spec: a portable serialization of the document
format, sufficient to stand for the bytes written to disk. -/
def docxBytes (d : Docx) : String :=
  joinSep "\n" (d.sections.map fun s => s.heading ++ "\n" ++ s.body)

/- ## The command body -/

/-- Boolean test that an effect is a Model Runner dispatch. -/
def Effect.isModelCall : Effect → Bool
  | Effect.modelCall _ _ => true
  | _ => false

/-- Trace of a finished run (empty for an aborted one). -/
def traceOf (r : Except RunError (List Effect)) : List Effect :=
  match r with
  | Except.ok tr => tr
  | Except.error _ => []

/-- Semantics of a trace on a file system (a map from filename to
content): a `fileWrite` stores the new content at the path
unconditionally, every other effect leaves the file system unchanged. -/
def applyFS : List Effect → (String → Option String) → String → Option String
  | [], fs => fs
  | Effect.fileWrite f c :: rest, fs =>
    applyFS rest (fun x => if x = f then some c else fs x)
  | Effect.login :: rest, fs => applyFS rest fs
  | Effect.publishPaper _ :: rest, fs => applyFS rest fs
  | Effect.modelCall _ _ :: rest, fs => applyFS rest fs
  | Effect.clipboardCopy _ :: rest, fs => applyFS rest fs
  | Effect.publishReport _ :: rest, fs => applyFS rest fs

/-- Continuation of `main` after the optional source publish (`rr.py`
lines 122-216): run the survey, then route the rendered report through
the three-way sink branch — clipboard (line 168), remote publish (line
177), local file (line 209).  A failed report publish models a raised
exception, aborting the run. -/
def mainAfterPush (env : Env) (o : Options) (coop_info : Option PublishRecord)
    (pushEff : List Effect) : Except RunError (List Effect) :=
  let rr := runSurvey env (scenarioOf o) (survey o.prompt) models
  if o.clipboard then
    Except.ok (Effect.login :: pushEff ++ rr.2 ++
      [Effect.clipboardCopy (reportText report_template rr.1)])
  else if o.to_coop then
    match env.pushReport with
    | Except.error e => Except.error (RunError.publishError e)
    | Except.ok _ =>
      Except.ok (Effect.login :: pushEff ++ rr.2 ++
        [Effect.fileWrite env.tempName (docxBytes (renderDocx report_template rr.1)),
         Effect.publishReport (reviewDescription o.pdf_file coop_info)])
  else
    Except.ok (Effect.login :: pushEff ++ rr.2 ++
      [Effect.fileWrite (localFilename o.pdf_file)
        (docxBytes (renderDocx report_template rr.1))])

/-- The command body of `rr.py` (`main`, lines 61-216), as a function
from the external environment and the parsed options to either a fatal
error or the trace of observable effects.  The login trigger (line 94)
comes first; when `--to_coop` is set the source document is published
next (lines 104-107), and a raised publish exception propagates out
unhandled; the survey then runs and the sink branch fires.  Console
output is omitted: it carries no data needed for correctness. -/
def rrMain (env : Env) (o : Options) : Except RunError (List Effect) :=
  if o.to_coop then
    match env.pushPaper with
    | Except.error e => Except.error (RunError.publishError e)
    | Except.ok r =>
      mainAfterPush env o (some r) [Effect.publishPaper (paperDescription o.pdf_file)]
  else
    mainAfterPush env o none []

/- ## Concrete sample environments and option records -/

/-- Sample publish record for the source document. -/
def sampleRecord : PublishRecord :=
  { url := "https://coop.example/paper", alias_url := "https://coop.example/p",
    uuid := "uuid-paper", version := "1", visibility := "public" }

/-- Sample publish record for the published report. -/
def sampleRecord2 : PublishRecord :=
  { url := "https://coop.example/review", alias_url := "https://coop.example/r",
    uuid := "uuid-review", version := "1", visibility := "public" }

/-- An environment in which every collaborator succeeds. -/
def okEnv : Env :=
  { evaluate := fun _ _ q _ => "answer to " ++ q.question_name,
    pushPaper := Except.ok sampleRecord,
    pushReport := Except.ok sampleRecord2,
    tempName := "/tmp/tmpabc123.docx" }

/-- An environment in which publishing the source document raises. -/
def failEnv : Env :=
  { okEnv with pushPaper := Except.error "network down" }

/-- Default invocation on `sample.pdf` (no flags). -/
def opts0 : Options := { pdf_file := "sample.pdf" }

/-- Invocation with `--pages 0`. -/
def optsPagesZero : Options := { pdf_file := "sample.pdf", pages := some 0 }

/-- Invocation with `--to_coop` only. -/
def optsRemote : Options := { pdf_file := "sample.pdf", to_coop := true }

/-- Invocation with both `--clipboard` and `--to_coop`. -/
def optsBoth : Options := { pdf_file := "sample.pdf", clipboard := true, to_coop := true }

set_option maxRecDepth 8000

/- ## General lemmas about the matrix build and the trace -/

theorem runModelChain_names (env : Env) (scen : Scenario) (m : ModelConfig) :
    ∀ (qs : List Question) (prior : List (String × String)),
      ((runModelChain env scen m qs prior).1).map Prod.fst = qs.map Question.question_name := by
  intro qs
  induction qs with
  | nil => intro prior; rfl
  | cons q rest ih => intro prior; simp [runModelChain, ih]

theorem runModelChain_length (env : Env) (scen : Scenario) (m : ModelConfig)
    (qs : List Question) (prior : List (String × String)) :
    ((runModelChain env scen m qs prior).1).length = qs.length := by
  have h := congrArg List.length (runModelChain_names env scen m qs prior)
  simpa using h

theorem runModelChain_effects (env : Env) (scen : Scenario) (m : ModelConfig) :
    ∀ (qs : List Question) (prior : List (String × String)),
      ∀ e ∈ (runModelChain env scen m qs prior).2, e.isModelCall = true := by
  intro qs
  induction qs with
  | nil => intro prior e h; simp [runModelChain] at h
  | cons q rest ih =>
    intro prior e h
    simp only [runModelChain, List.mem_cons] at h
    rcases h with h | h
    · subst h; rfl
    · exact ih _ e h

theorem runSurvey_models (env : Env) (scen : Scenario) (qs : List Question)
    (ms : List ModelConfig) :
    ((runSurvey env scen qs ms).1).map ModelResult.model = ms := by
  induction ms with
  | nil => rfl
  | cons m rest ih => simp [runSurvey, ih]

theorem runSurvey_totalCells (env : Env) (scen : Scenario) (qs : List Question)
    (ms : List ModelConfig) :
    totalCells (runSurvey env scen qs ms).1 = ms.length * qs.length := by
  induction ms with
  | nil => simp [runSurvey, totalCells]
  | cons m rest ih =>
    simp only [runSurvey, totalCells, List.map_cons, List.sum_cons, List.length_cons] at ih ⊢
    rw [runModelChain_length, ih]
    ring

theorem runSurvey_effects (env : Env) (scen : Scenario) (qs : List Question)
    (ms : List ModelConfig) :
    ∀ e ∈ (runSurvey env scen qs ms).2, e.isModelCall = true := by
  induction ms with
  | nil => intro e h; simp [runSurvey] at h
  | cons m rest ih =>
    intro e h
    simp only [runSurvey, List.mem_append] at h
    rcases h with h | h
    · exact runModelChain_effects env scen m qs [] e h
    · exact ih e h

theorem runSurvey_effects_head (env : Env) (scen : Scenario) (p : String) :
    ∃ l, (runSurvey env scen (survey p) models).2 =
      Effect.modelCall "claude-opus-4-20250514" "full_review" :: l :=
  ⟨_, rfl⟩

theorem applyFS_append (l₁ l₂ : List Effect) (fs : String → Option String) :
    applyFS (l₁ ++ l₂) fs = applyFS l₂ (applyFS l₁ fs) := by
  induction l₁ generalizing fs with
  | nil => rfl
  | cons e rest ih => cases e <;> simp [applyFS, ih]

theorem applyFS_skip (l : List Effect) (h : ∀ e ∈ l, e.isModelCall = true)
    (fs : String → Option String) : applyFS l fs = fs := by
  induction l generalizing fs with
  | nil => rfl
  | cons e rest ih =>
    have he := h e (List.mem_cons_self e rest)
    have hr : ∀ e2 ∈ rest, e2.isModelCall = true :=
      fun e2 h2 => h e2 (List.mem_cons_of_mem e h2)
    cases e with
    | modelCall m q => simpa [applyFS] using ih hr fs
    | login => simp [Effect.isModelCall] at he
    | publishPaper d => simp [Effect.isModelCall] at he
    | clipboardCopy t => simp [Effect.isModelCall] at he
    | fileWrite f c => simp [Effect.isModelCall] at he
    | publishReport d => simp [Effect.isModelCall] at he

/- ## Claim theorems -/

/-- C1 counterexample: the invocation `rr.py sample.pdf --pages 0` is
not rejected — with every collaborator succeeding, the run finishes
normally and a Model Runner call does occur, contradicting the claimed
InvalidArgumentError rejection before any model call. -/
theorem c1_counterexample :
    (rrMain okEnv optsPagesZero).isOk = true ∧
    Effect.modelCall "claude-opus-4-20250514" "full_review"
      ∈ traceOf (rrMain okEnv optsPagesZero) :=
  ⟨rfl, by decide⟩

/-- C1 (amended): a `--pages` value of 0 is treated exactly like
omitting the flag (no pages key, and the whole run is identical); a
negative value is not rejected either — it is passed through unchanged
as the pages key of the document reference; omission applies no
truncation.  No InvalidArgumentError rejection exists in the code. -/
theorem c1_amended (env : Env) (o : Options) (p : Int) (hneg : p < 0) :
    (fileStoreKwargs o.pdf_file (some 0)).pages = none ∧
    (fileStoreKwargs o.pdf_file none).pages = none ∧
    (fileStoreKwargs o.pdf_file (some p)).pages = some p ∧
    rrMain env { o with pages := some 0 } = rrMain env { o with pages := none } := by
  have hne : p ≠ 0 := by omega
  refine ⟨rfl, rfl, ?_, ?_⟩
  · simp [fileStoreKwargs, pagesTruthy, hne]
  · rfl

/-- C1 amended witness at a concrete negative page count. -/
theorem c1_amended_witness :
    (fileStoreKwargs "sample.pdf" (some 0)).pages = none ∧
    (fileStoreKwargs "sample.pdf" none).pages = none ∧
    (fileStoreKwargs "sample.pdf" (some (-3))).pages = some (-3) ∧
    rrMain okEnv { opts0 with pages := some 0 } = rrMain okEnv { opts0 with pages := none } :=
  c1_amended okEnv opts0 (-3) (by decide)

/-- C2 counterexample: with the remote-publish sink selected and the
source-document publish raising, the run does not complete — `rrMain`
aborts with the publish error, so no report description containing
`unknown` is ever produced. -/
theorem c2_counterexample :
    rrMain failEnv optsRemote = Except.error (RunError.publishError "network down") :=
  rfl

/-- C2 (amended): if the remote-publish sink is selected and the
source-document publish raises, the run aborts with that publish error
(`rr.py` has no handler around `paper.push`); the literal `unknown`
fallback in the report description is taken only when no source publish
record is present, a case the remote-publish path can no longer reach. -/
theorem c2_amended (env : Env) (o : Options) (e : String)
    (hct : o.to_coop = true) (hp : env.pushPaper = Except.error e) :
    rrMain env o = Except.error (RunError.publishError e) ∧
    reviewDescription o.pdf_file none =
      "Review of paper: " ++ pathName o.pdf_file ++ ". Paper at " ++ "unknown" := by
  constructor
  · simp [rrMain, hct, hp]
  · rfl

/-- C2 amended witness at the concrete failing environment. -/
theorem c2_amended_witness :
    rrMain failEnv optsRemote = Except.error (RunError.publishError "network down") ∧
    reviewDescription optsRemote.pdf_file none =
      "Review of paper: " ++ pathName optsRemote.pdf_file ++ ". Paper at " ++ "unknown" :=
  c2_amended failEnv optsRemote "network down" rfl rfl

/-- C3 counterexample: supplying both `--clipboard` and `--to_coop` is
a legal input — the run is accepted and the rendered report goes to the
clipboard, contradicting the claimed mutual exclusion. -/
theorem c3_counterexample :
    (rrMain okEnv optsBoth).isOk = true ∧
    Effect.clipboardCopy (reportText report_template
      (runSurvey okEnv (scenarioOf optsBoth) (survey optsBoth.prompt) models).1)
      ∈ traceOf (rrMain okEnv optsBoth) :=
  ⟨rfl, by decide⟩

/-- C3 (amended): the two flags are not rejected as mutually exclusive;
sink selection is a precedence chain — clipboard first, then remote
publish, then local file — so exactly one sink receives the rendered
report.  With both flags set the clipboard branch wins: the report is
copied to the clipboard, no file is written and the report is never
published. -/
theorem c3_amended (env : Env) (o : Options) (r : PublishRecord)
    (hcb : o.clipboard = true) (hct : o.to_coop = true)
    (hp : env.pushPaper = Except.ok r) :
    ∃ tr, rrMain env o = Except.ok tr ∧
      Effect.clipboardCopy (reportText report_template
        (runSurvey env (scenarioOf o) (survey o.prompt) models).1) ∈ tr ∧
      (∀ f c, Effect.fileWrite f c ∉ tr) ∧
      (∀ d, Effect.publishReport d ∉ tr) := by
  have hmain : rrMain env o = Except.ok (Effect.login ::
      Effect.publishPaper (paperDescription o.pdf_file) ::
      ((runSurvey env (scenarioOf o) (survey o.prompt) models).2 ++
       [Effect.clipboardCopy (reportText report_template
         (runSurvey env (scenarioOf o) (survey o.prompt) models).1)])) := by
    simp [rrMain, mainAfterPush, hcb, hct, hp]
  refine ⟨_, hmain, ?_, ?_, ?_⟩
  · simp
  · intro f c hmem
    simp only [List.mem_cons, List.mem_append] at hmem
    rcases hmem with h | h | h | h | h
    · exact Effect.noConfusion h
    · exact Effect.noConfusion h
    · have h2 := runSurvey_effects env (scenarioOf o) (survey o.prompt) models _ h
      simp [Effect.isModelCall] at h2
    · exact Effect.noConfusion h
    · simp at h
  · intro d hmem
    simp only [List.mem_cons, List.mem_append] at hmem
    rcases hmem with h | h | h | h | h
    · exact Effect.noConfusion h
    · exact Effect.noConfusion h
    · have h2 := runSurvey_effects env (scenarioOf o) (survey o.prompt) models _ h
      simp [Effect.isModelCall] at h2
    · exact Effect.noConfusion h
    · simp at h

/-- C3 amended witness at the concrete both-flags invocation. -/
theorem c3_amended_witness :
    ∃ tr, rrMain okEnv optsBoth = Except.ok tr ∧
      Effect.clipboardCopy (reportText report_template
        (runSurvey okEnv (scenarioOf optsBoth) (survey optsBoth.prompt) models).1) ∈ tr ∧
      (∀ f c, Effect.fileWrite f c ∉ tr) ∧
      (∀ d, Effect.publishReport d ∉ tr) :=
  c3_amended okEnv optsBoth sampleRecord rfl rfl rfl

/-- C7: the `--prompt` value becomes the template text of the first
question `full_review`, whose dispatched template is the prompt text
followed by a space and the scenario.paper placeholder; the default
prompt is the fixed economics-style critique string. -/
theorem c7_prompt_question (p : String) :
    (survey p).head? = some (review_question p) ∧
    (review_question p).question_name = "full_review" ∧
    (review_question p).question_text = p ++ " \x7b\x7bscenario.paper\x7d\x7d" ∧
    (review_question defaultPrompt).question_text =
      "Write a full economics-style critical review of this paper: \x7b\x7bscenario.paper\x7d\x7d" :=
  ⟨rfl, rfl, rfl, rfl⟩

/-- C7 witness at a concrete custom prompt. -/
theorem c7_prompt_question_witness :
    (survey "Provide a technical review").head? =
      some (review_question "Provide a technical review") ∧
    (review_question "Provide a technical review").question_name = "full_review" ∧
    (review_question "Provide a technical review").question_text =
      "Provide a technical review" ++ " \x7b\x7bscenario.paper\x7d\x7d" ∧
    (review_question defaultPrompt).question_text =
      "Write a full economics-style critical review of this paper: \x7b\x7bscenario.paper\x7d\x7d" :=
  c7_prompt_question "Provide a technical review"

/-- C8: text rendering is a pure function of the result matrix and the
template — two invocations on equal inputs give byte-identical output. -/
theorem c8_render_pure (M M2 : ResultMatrix) (t t2 : String)
    (hM : M = M2) (ht : t = t2) :
    reportText t M = reportText t2 M2 := by
  rw [hM, ht]

/-- C8 witness: rendering the concrete sample matrix twice. -/
theorem c8_render_pure_witness :
    reportText report_template
        (runSurvey okEnv (scenarioOf opts0) (survey defaultPrompt) models).1 =
      reportText report_template
        (runSurvey okEnv (scenarioOf opts0) (survey defaultPrompt) models).1 :=
  c8_render_pure _ _ _ _ rfl rfl

/-- C9: the `--output` option is never read — any run with `output`
replaced by an arbitrary value (present or absent) is identical in
error outcome and in every recorded effect. -/
theorem c9_output_unused (env : Env) (o : Options) (v : Option String) :
    rrMain env { o with output := v } = rrMain env o :=
  rfl

/-- C9 witness at a concrete output path. -/
theorem c9_output_unused_witness :
    rrMain okEnv { opts0 with output := some "results.docx" } = rrMain okEnv opts0 :=
  c9_output_unused okEnv opts0 (some "results.docx")

/-- C4: a run of the two-question survey over the three configured
models yields exactly 2 times 3 result cells, and the rendered report
has exactly 3 sections whose headings follow Model Set declaration
order. -/
theorem c4_matrix_shape (env : Env) (scen : Scenario) (p : String)
    (M : ResultMatrix) (tr : List Effect)
    (h : runSurvey env scen (survey p) models = (M, tr)) :
    totalCells M = 2 * 3 ∧
    (reportSections report_template M).length = 3 ∧
    M.map ModelResult.model = models ∧
    (renderDocx report_template M).sections.map DocxSection.heading
      = models.map ModelConfig.model := by
  have hM : M = (runSurvey env scen (survey p) models).1 := by rw [h]
  subst hM
  have hmodels := runSurvey_models env scen (survey p) models
  refine ⟨?_, ?_, hmodels, ?_⟩
  · rw [runSurvey_totalCells]
    rfl
  · have hlen := congrArg List.length hmodels
    simp only [List.length_map] at hlen
    simp only [reportSections, List.length_map, hlen]
    rfl
  · rw [renderDocx]
    rw [List.map_map]
    rw [← hmodels, List.map_map]
    rfl

/-- C4 witness: the concrete run in the all-success environment. -/
theorem c4_matrix_shape_witness :
    totalCells (runSurvey okEnv (scenarioOf opts0) (survey defaultPrompt) models).1 = 2 * 3 ∧
    (reportSections report_template
      (runSurvey okEnv (scenarioOf opts0) (survey defaultPrompt) models).1).length = 3 ∧
    (runSurvey okEnv (scenarioOf opts0) (survey defaultPrompt) models).1.map
      ModelResult.model = models ∧
    (renderDocx report_template
      (runSurvey okEnv (scenarioOf opts0) (survey defaultPrompt) models).1).sections.map
      DocxSection.heading = models.map ModelConfig.model :=
  c4_matrix_shape okEnv (scenarioOf opts0) defaultPrompt _ _ rfl

/-- C5: on the remote-publish path the source document publish is
recorded strictly before every Model Runner dispatch (the prefix before
it holds no model call, and model calls do occur afterwards), and the
URL of the returned publish record is threaded into the description
under which the rendered report is published. -/
theorem c5_publish_order (env : Env) (o : Options) (r r2 : PublishRecord)
    (hct : o.to_coop = true) (hcb : o.clipboard = false)
    (hp : env.pushPaper = Except.ok r) (hr : env.pushReport = Except.ok r2) :
    ∃ pre post,
      rrMain env o = Except.ok
        (pre ++ Effect.publishPaper (paperDescription o.pdf_file) :: post) ∧
      (∀ e ∈ pre, e.isModelCall = false) ∧
      (∃ e ∈ post, e.isModelCall = true) ∧
      Effect.publishReport
        ("Review of paper: " ++ pathName o.pdf_file ++ ". Paper at " ++ r.url) ∈ post := by
  refine ⟨[Effect.login],
    (runSurvey env (scenarioOf o) (survey o.prompt) models).2 ++
      [Effect.fileWrite env.tempName (docxBytes (renderDocx report_template
        (runSurvey env (scenarioOf o) (survey o.prompt) models).1)),
       Effect.publishReport (reviewDescription o.pdf_file (some r))],
    ?_, ?_, ?_, ?_⟩
  · simp [rrMain, mainAfterPush, hct, hcb, hp, hr]
  · intro e he
    simp only [List.mem_singleton] at he
    subst he
    rfl
  · obtain ⟨l, hl⟩ := runSurvey_effects_head env (scenarioOf o) o.prompt
    exact ⟨Effect.modelCall "claude-opus-4-20250514" "full_review", by simp [hl], rfl⟩
  · have hd : reviewDescription o.pdf_file (some r) =
        "Review of paper: " ++ pathName o.pdf_file ++ ". Paper at " ++ r.url := rfl
    simp [hd]

/-- C5 witness: the concrete remote-publish invocation. -/
theorem c5_publish_order_witness :
    ∃ pre post,
      rrMain okEnv optsRemote = Except.ok
        (pre ++ Effect.publishPaper (paperDescription optsRemote.pdf_file) :: post) ∧
      (∀ e ∈ pre, e.isModelCall = false) ∧
      (∃ e ∈ post, e.isModelCall = true) ∧
      Effect.publishReport
        ("Review of paper: " ++ pathName optsRemote.pdf_file ++ ". Paper at " ++
          sampleRecord.url) ∈ post :=
  c5_publish_order okEnv optsRemote sampleRecord sampleRecord2 rfl rfl rfl rfl

/-- C6: with neither flag given, the run writes the document-format
report to `referee_report_<stem>.docx`, and the final file system maps
that path to the new report content whatever was stored there before
(the write overwrites). -/
theorem c6_local_sink (env : Env) (o : Options)
    (hcb : o.clipboard = false) (hct : o.to_coop = false) :
    ∃ tr, rrMain env o = Except.ok tr ∧
      localFilename o.pdf_file = "referee_report_" ++ pathStem o.pdf_file ++ ".docx" ∧
      Effect.fileWrite (localFilename o.pdf_file)
        (docxBytes (renderDocx report_template
          (runSurvey env (scenarioOf o) (survey o.prompt) models).1)) ∈ tr ∧
      ∀ fs : String → Option String,
        applyFS tr fs (localFilename o.pdf_file) =
          some (docxBytes (renderDocx report_template
            (runSurvey env (scenarioOf o) (survey o.prompt) models).1)) := by
  have hmain : rrMain env o = Except.ok (Effect.login ::
      ((runSurvey env (scenarioOf o) (survey o.prompt) models).2 ++
       [Effect.fileWrite (localFilename o.pdf_file)
         (docxBytes (renderDocx report_template
           (runSurvey env (scenarioOf o) (survey o.prompt) models).1))])) := by
    simp [rrMain, mainAfterPush, hcb, hct]
  refine ⟨_, hmain, rfl, ?_, ?_⟩
  · simp
  · intro fs
    have hskip := applyFS_skip (runSurvey env (scenarioOf o) (survey o.prompt) models).2
      (runSurvey_effects env (scenarioOf o) (survey o.prompt) models) fs
    simp [applyFS, applyFS_append, hskip]

/-- C6 witness: the concrete default invocation on sample.pdf, with the
filename evaluated. -/
theorem c6_local_sink_witness :
    localFilename "sample.pdf" = "referee_report_sample.docx" ∧
    (∃ tr, rrMain okEnv opts0 = Except.ok tr ∧
      localFilename opts0.pdf_file =
        "referee_report_" ++ pathStem opts0.pdf_file ++ ".docx" ∧
      Effect.fileWrite (localFilename opts0.pdf_file)
        (docxBytes (renderDocx report_template
          (runSurvey okEnv (scenarioOf opts0) (survey opts0.prompt) models).1)) ∈ tr ∧
      ∀ fs : String → Option String,
        applyFS tr fs (localFilename opts0.pdf_file) =
          some (docxBytes (renderDocx report_template
            (runSurvey okEnv (scenarioOf opts0) (survey opts0.prompt) models).1))) :=
  ⟨by decide, c6_local_sink okEnv opts0 rfl rfl⟩

/-- C10: with both flags given, the source document is still published,
and before any model call; the rendered report goes only to the
clipboard — no file of any kind is written and the report itself is
never published. -/
theorem c10_clipboard_precedence (env : Env) (o : Options) (r : PublishRecord)
    (hcb : o.clipboard = true) (hct : o.to_coop = true)
    (hp : env.pushPaper = Except.ok r) :
    ∃ tr, rrMain env o = Except.ok tr ∧
      (∃ pre post, tr = pre ++ Effect.publishPaper (paperDescription o.pdf_file) :: post ∧
        ∀ e ∈ pre, e.isModelCall = false) ∧
      Effect.clipboardCopy (reportText report_template
        (runSurvey env (scenarioOf o) (survey o.prompt) models).1) ∈ tr ∧
      (∀ f c, Effect.fileWrite f c ∉ tr) ∧
      (∀ d, Effect.publishReport d ∉ tr) := by
  have hmain : rrMain env o = Except.ok (Effect.login ::
      Effect.publishPaper (paperDescription o.pdf_file) ::
      ((runSurvey env (scenarioOf o) (survey o.prompt) models).2 ++
       [Effect.clipboardCopy (reportText report_template
         (runSurvey env (scenarioOf o) (survey o.prompt) models).1)])) := by
    simp [rrMain, mainAfterPush, hcb, hct, hp]
  refine ⟨_, hmain, ?_, ?_, ?_, ?_⟩
  · refine ⟨[Effect.login], _, rfl, ?_⟩
    intro e he
    simp only [List.mem_singleton] at he
    subst he
    rfl
  · simp
  · intro f c hmem
    simp only [List.mem_cons, List.mem_append] at hmem
    rcases hmem with h | h | h | h | h
    · exact Effect.noConfusion h
    · exact Effect.noConfusion h
    · have h2 := runSurvey_effects env (scenarioOf o) (survey o.prompt) models _ h
      simp [Effect.isModelCall] at h2
    · exact Effect.noConfusion h
    · simp at h
  · intro d hmem
    simp only [List.mem_cons, List.mem_append] at hmem
    rcases hmem with h | h | h | h | h
    · exact Effect.noConfusion h
    · exact Effect.noConfusion h
    · have h2 := runSurvey_effects env (scenarioOf o) (survey o.prompt) models _ h
      simp [Effect.isModelCall] at h2
    · exact Effect.noConfusion h
    · simp at h

/-- C10 witness: the concrete both-flags invocation. -/
theorem c10_clipboard_precedence_witness :
    ∃ tr, rrMain okEnv optsBoth = Except.ok tr ∧
      (∃ pre post,
        tr = pre ++ Effect.publishPaper (paperDescription optsBoth.pdf_file) :: post ∧
        ∀ e ∈ pre, e.isModelCall = false) ∧
      Effect.clipboardCopy (reportText report_template
        (runSurvey okEnv (scenarioOf optsBoth) (survey optsBoth.prompt) models).1) ∈ tr ∧
      (∀ f c, Effect.fileWrite f c ∉ tr) ∧
      (∀ d, Effect.publishReport d ∉ tr) :=
  c10_clipboard_precedence okEnv optsBoth sampleRecord rfl rfl rfl
